import Mathlib

/-!
Shallow embedding of the nws weather client library (`src/lib.rs`) together
with proofs about its specified behaviour.

Modelling conventions:
* Rust `f32` values are modelled as real numbers (`ℝ`); the rounding of the
  individual floating-point operations is not modelled.
* `chrono::DateTime<Local>` is modelled as an opaque pair of a date part and a
  time-of-day part; `DateTime.time` models chrono's `.time()` projection.
* JSON documents (`serde_json::Value`) are modelled by the inductive `Json`;
  the serde-derived deserializers of the typed structures (including their
  `rename` attributes) are modelled by explicit decode functions.
* The HTTP transport and the text-level JSON parser are external collaborators
  (spec §1); they are passed to the resolver and the fetchers as oracle
  functions (`Point → Option Json` resp. `String → Option Forecast`).
* Rust panics (`unwrap` on `None` in the aggregator, out-of-bounds slicing in
  the orchestrator) are modelled as `Option.none` resp. a dedicated
  `panicked` outcome.
* The `println!` status message inside `earth_distance_from` is I/O only and
  has no counterpart in the embedding; the embedded function returns exactly
  the value the Rust function returns.
-/

open Real

namespace NWS

/-- Rust `f32::to_radians`: multiplication by `π / 180`. -/
noncomputable def toRadians (x : ℝ) : ℝ := x * (π / 180)

/-- Geo-coordinate Point object type (`struct Point`). -/
structure Point where
  lat : ℝ
  lng : ℝ

/-- `Point::new`. -/
def Point.new (lat lng : ℝ) : Point :=
  { lat := lat, lng := lng }

/-- `Point::earth_distance_from`, translated operation by operation from the
source: Haversine distance in kilometres.  The `println!` side effect of the
source has no effect on the returned value and is not modelled. -/
noncomputable def Point.earth_distance_from (self : Point) (other : Point) : ℝ :=
  let earth_radius_kilometer : ℝ := 6371.0
  let lat_rads := toRadians self.lat
  let other_lat_rads := toRadians other.lat
  let delta_latitude := toRadians (self.lat - other.lat)
  let delta_longitude := toRadians (self.lng - other.lng)
  let central_angle_inner := sin (delta_latitude / 2.0) ^ 2
    + cos lat_rads * cos other_lat_rads * sin (delta_longitude / 2.0) ^ 2
  let central_angle := 2.0 * arcsin (sqrt central_angle_inner)
  let distance := earth_radius_kilometer * central_angle
  distance

/-- The Haversine algorithm exactly as §4.1 of the spec words it: convert both
latitudes to radians; compute Δlat, Δlng in radians; form
`h = sin²(Δlat/2) + cos(lat_a)·cos(lat_b)·sin²(Δlng/2)`; central angle
`2·asin(√h)` (no clamping of `h` to `[0,1]`); distance = radius × central
angle with the 6371 km mean-radius constant.  Used only to compare against
the embedding of the source (refinement claim). -/
noncomputable def haversineSpecDistance (a b : Point) : ℝ :=
  let lat_a := a.lat * (π / 180)
  let lat_b := b.lat * (π / 180)
  let dlat := (a.lat - b.lat) * (π / 180)
  let dlng := (a.lng - b.lng) * (π / 180)
  let h := sin (dlat / 2) ^ 2 + cos lat_a * cos lat_b * sin (dlng / 2) ^ 2
  let central_angle := 2 * arcsin (sqrt h)
  6371 * central_angle

/-- City object (`struct City`), parsed from an external dataset. -/
structure City where
  city : String
  state_id : String
  lat : ℝ
  lng : ℝ

/-- `impl From<City> for Point` (the source constructs
`Point::new(city.lat, city.lng)`). -/
def Point.fromCity (city : City) : Point :=
  Point.new city.lat city.lng

/-- The error type of the library (`crate::Error`); only the two failure
sources of the embedded pipeline are distinguished: transport failures and
body-decoding failures (spec §7). -/
inductive Error where
  | network
  | decode
deriving DecidableEq

/-- `City::into_point`: always returns `Ok` with the copied coordinates. -/
def City.into_point (self : City) : Except Error Point :=
  .ok { lat := self.lat, lng := self.lng }

/-- Model of a parsed JSON document (`serde_json::Value`). -/
inductive Json where
  | null
  | bool (b : Bool)
  | num (n : Int)
  | str (s : String)
  | arr (elems : List Json)
  | obj (fields : List (String × Json))
deriving Inhabited

/-- First binding of a key in a JSON object field list. -/
def lookupField : List (String × Json) → String → Option Json
  | [], _ => none
  | (k, v) :: rest, key => if k = key then some v else lookupField rest key

/-- Field lookup on a JSON value: `some` only on objects that bind the key. -/
def Json.lookup : Json → String → Option Json
  | .obj fields, key => lookupField fields key
  | _, _ => none

/-- View of a JSON value as a string (serde: a `String` field only
deserializes from a JSON string). -/
def Json.asStr : Json → Option String
  | .str s => some s
  | _ => none

/-- Read a required string field: the key must be bound and bound to a JSON
string, as serde requires for a `String` struct field. -/
def Json.getStr (j : Json) (key : String) : Option String :=
  (j.lookup key).bind Json.asStr

/-- Model of `chrono::DateTime<Local>`: an opaque date part and a time-of-day
part.  `DateTime.time` plays the role of chrono's `.time()`. -/
structure DateTime where
  date : Int
  time : Int
deriving DecidableEq

/-- Inner properties object of `RelativeLocation` (`struct RelativeProps`). -/
structure RelativeProps where
  city : String
  state : String
  distance : Json
  bearing : Json

/-- Inner `relative_location` object of `PointProps`
(`struct RelativeLocation`). -/
structure RelativeLocation where
  geometry : Json
  properties : RelativeProps

/-- Inner properties object of `PointInfo` (`struct PointProps`); all wire
names that differ from the model names carry a serde `rename`, mirrored by
`decodePointProps`. -/
structure PointProps where
  forecast_office : String
  forecast : String
  forecast_hourly : String
  forecast_grid_data : String
  observation_stations : String
  relative_location : RelativeLocation
  forecast_zone : String
  county : String
  fire_weather_zone : String
  time_zone : String
  radar_station : String

/-- Result of a `GET /points` request (`struct PointInfo`). -/
structure PointInfo where
  id : String
  properties : PointProps

/-- Serde-derived deserializer of `RelativeProps`: fields `city` and `state`
are strings, `distance` and `bearing` are carried as opaque JSON. -/
def decodeRelativeProps (j : Json) : Option RelativeProps := do
  let city ← j.getStr "city"
  let state ← j.getStr "state"
  let distance ← j.lookup "distance"
  let bearing ← j.lookup "bearing"
  some { city := city, state := state, distance := distance, bearing := bearing }

/-- Serde-derived deserializer of `RelativeLocation`. -/
def decodeRelativeLocation (j : Json) : Option RelativeLocation := do
  let geometry ← j.lookup "geometry"
  let properties ← (j.lookup "properties").bind decodeRelativeProps
  some { geometry := geometry, properties := properties }

/-- Serde-derived deserializer of `PointProps`: each model field reads from
its wire name, the camelCase ones via the `#[serde(rename(deserialize))]`
attributes of the source. -/
def decodePointProps (j : Json) : Option PointProps := do
  let forecast_office ← j.getStr "forecastOffice"
  let forecast ← j.getStr "forecast"
  let forecast_hourly ← j.getStr "forecastHourly"
  let forecast_grid_data ← j.getStr "forecastGridData"
  let observation_stations ← j.getStr "observationStations"
  let relative_location ← (j.lookup "relativeLocation").bind decodeRelativeLocation
  let forecast_zone ← j.getStr "forecastZone"
  let county ← j.getStr "county"
  let fire_weather_zone ← j.getStr "fireWeatherZone"
  let time_zone ← j.getStr "timeZone"
  let radar_station ← j.getStr "radarStation"
  some { forecast_office := forecast_office, forecast := forecast,
         forecast_hourly := forecast_hourly,
         forecast_grid_data := forecast_grid_data,
         observation_stations := observation_stations,
         relative_location := relative_location,
         forecast_zone := forecast_zone, county := county,
         fire_weather_zone := fire_weather_zone, time_zone := time_zone,
         radar_station := radar_station }

/-- Serde-derived deserializer of `PointInfo`. -/
def decodePointInfo (j : Json) : Option PointInfo := do
  let id ← j.getStr "id"
  let properties ← (j.lookup "properties").bind decodePointProps
  some { id := id, properties := properties }

/-- Single item of the `periods` list (`struct ForecastPeriod`); the two wind
fields are optional on the wire and in the model. -/
structure ForecastPeriod where
  number : Nat
  name : String
  start_time : DateTime
  end_time : DateTime
  is_day_time : Bool
  temperature : Int
  temperature_unit : String
  wind_speed : Option String
  wind_direction : Option String
  icon : String
  short_forecast : String
  detailed_forecast : String
deriving DecidableEq

/-- Inner properties object of `Forecast` (`struct ForecastProps`). -/
structure ForecastProps where
  updated : DateTime
  units : String
  generated_at : DateTime
  elevation : Json
  periods : List ForecastPeriod

/-- Result of a `GET /forecast` request (`struct Forecast`). -/
structure Forecast where
  properties : ForecastProps

/-- Forecast output representation (`struct ForecastBundle`). -/
structure ForecastBundle where
  start : DateTime
  «end» : DateTime
  temperature : Int
  wind_speed : String
  wind_direction : String
  short_forecast : String
deriving DecidableEq

/-- WeatherForecast output representation tied to a specific City
(`struct WeatherBundle`). -/
structure WeatherBundle where
  location : City
  forecast : List ForecastBundle
  updated : DateTime

/-- The loop body of `WeatherBundle::new`: one `ForecastBundle` per period,
in input order.  The source calls `.unwrap()` on `wind_speed` and
`wind_direction`; a missing value panics, modelled as `none`. -/
def buildForecastVec : List ForecastPeriod → Option (List ForecastBundle)
  | [] => some []
  | i :: rest => do
    let ws ← i.wind_speed
    let wd ← i.wind_direction
    let tail ← buildForecastVec rest
    some ({ start := i.start_time, «end» := i.end_time,
            temperature := i.temperature, wind_speed := ws,
            wind_direction := wd, short_forecast := i.short_forecast } :: tail)

/-- `WeatherBundle::new`: reduce a `Forecast` against a `City`.  `none` models
the panic of the source's `.unwrap()` on a missing wind field. -/
def WeatherBundle.new (loc : City) (fcb : Forecast) : Option WeatherBundle :=
  (buildForecastVec fcb.properties.periods).map
    (fun vec => { location := loc, forecast := vec,
                  updated := fcb.properties.updated })

/-- `get_point`: resolve a `Point` to its metadata.  `pts` is the oracle for
URL rendering, transport and text-level JSON parsing (external collaborators,
spec §1); the typed decode step is `decodePointInfo`. -/
def get_point (pts : Point → Option Json) (pnt : Point) : Except Error PointInfo :=
  match pts pnt with
  | none => .error .network
  | some body =>
    match decodePointInfo body with
    | none => .error .decode
    | some res => .ok res

/-- `get_forecast`: fetch the standard forecast document from
`pnt.properties.forecast`.  `net` is the oracle for transport, text and
parsing of the forecast body (external collaborators, spec §1). -/
def get_forecast (net : String → Option Forecast) (pnt : PointInfo) :
    Except Error Forecast :=
  match net pnt.properties.forecast with
  | none => .error .network
  | some res => .ok res

/-- `get_forecast_hourly`: fetch the hourly forecast document from
`pnt.properties.forecast_hourly`. -/
def get_forecast_hourly (net : String → Option Forecast) (pnt : PointInfo) :
    Except Error Forecast :=
  match net pnt.properties.forecast_hourly with
  | none => .error .network
  | some res => .ok res

/-- One rendered console line of `weather_report`: start time, end time,
temperature and short forecast of a period (the source prints
`start_time.time()` and `end_time.time()`). -/
structure ReportLine where
  start_time : Int
  end_time : Int
  temperature : Int
  short_forecast : String
deriving DecidableEq

/-- Outcome of one `weather_report` invocation: the rendered lines, a
propagated error, or the panic of the unguarded `periods[0..10]` slice. -/
inductive ReportOutcome where
  | ok (lines : List ReportLine)
  | err (e : Error)
  | panicked

/-- Rendering of one forecast period as printed by `weather_report`. -/
def renderPeriod (i : ForecastPeriod) : ReportLine :=
  { start_time := i.start_time.time, end_time := i.end_time.time,
    temperature := i.temperature, short_forecast := i.short_forecast }

/-- `weather_report`: the report orchestrator.  Builds the `Point`, resolves
it, fetches the hourly forecast and renders `periods[0..10]`; the slice
panics when fewer than 10 periods are available (no clamping guard). -/
def weather_report (pts : Point → Option Json) (net : String → Option Forecast)
    (lat lng : ℝ) : ReportOutcome :=
  let point : Point := { lat := lat, lng := lng }
  match get_point pts point with
  | .error e => .err e
  | .ok res =>
    match get_forecast_hourly net res with
    | .error e => .err e
    | .ok resf =>
      if 10 ≤ resf.properties.periods.length then
        .ok ((resf.properties.periods.take 10).map renderPeriod)
      else
        .panicked

/-! Concrete sample data used by the witness theorems. -/

/-- A well-formed `relativeLocation` JSON body. -/
def sampleRelativeJson : Json :=
  .obj [("geometry", .null),
        ("properties",
          .obj [("city", .str "Albuquerque"), ("state", .str "NM"),
                ("distance", .obj [("unitCode", .str "wmoUnit:m"),
                                   ("value", .num 3352)]),
                ("bearing", .obj [("unitCode", .str "wmoUnit:degree"),
                                  ("value", .num 144)])])]

/-- A well-formed metadata JSON body for point (35.05, -106.65). -/
def sampleMetaJson : Json :=
  .obj [("id", .str "https://api.weather.gov/points/35.05,-106.65"),
        ("properties",
          .obj [("forecastOffice", .str "https://api.weather.gov/offices/ABQ"),
                ("forecast",
                  .str "https://api.weather.gov/gridpoints/ABQ/97,105/forecast"),
                ("forecastHourly",
                  .str "https://api.weather.gov/gridpoints/ABQ/97,105/forecast/hourly"),
                ("forecastGridData",
                  .str "https://api.weather.gov/gridpoints/ABQ/97,105"),
                ("observationStations",
                  .str "https://api.weather.gov/gridpoints/ABQ/97,105/stations"),
                ("relativeLocation", sampleRelativeJson),
                ("forecastZone",
                  .str "https://api.weather.gov/zones/forecast/NMZ211"),
                ("county", .str "https://api.weather.gov/zones/county/NMC001"),
                ("fireWeatherZone",
                  .str "https://api.weather.gov/zones/fire/NMZ104"),
                ("timeZone", .str "America/Denver"),
                ("radarStation", .str "KABX")])]

/-- The decoded form of `sampleRelativeJson`. -/
def sampleRelativeLocation : RelativeLocation :=
  { geometry := .null,
    properties :=
      { city := "Albuquerque", state := "NM",
        distance := .obj [("unitCode", .str "wmoUnit:m"), ("value", .num 3352)],
        bearing := .obj [("unitCode", .str "wmoUnit:degree"),
                         ("value", .num 144)] } }

/-- The decoded form of `sampleMetaJson`. -/
def samplePointInfo : PointInfo :=
  { id := "https://api.weather.gov/points/35.05,-106.65",
    properties :=
      { forecast_office := "https://api.weather.gov/offices/ABQ",
        forecast := "https://api.weather.gov/gridpoints/ABQ/97,105/forecast",
        forecast_hourly :=
          "https://api.weather.gov/gridpoints/ABQ/97,105/forecast/hourly",
        forecast_grid_data := "https://api.weather.gov/gridpoints/ABQ/97,105",
        observation_stations :=
          "https://api.weather.gov/gridpoints/ABQ/97,105/stations",
        relative_location := sampleRelativeLocation,
        forecast_zone := "https://api.weather.gov/zones/forecast/NMZ211",
        county := "https://api.weather.gov/zones/county/NMC001",
        fire_weather_zone := "https://api.weather.gov/zones/fire/NMZ104",
        time_zone := "America/Denver",
        radar_station := "KABX" } }

/-- The k-th sample hourly period; consecutive one-hour windows with both
wind fields present. -/
def samplePeriod (k : Nat) : ForecastPeriod :=
  { number := k + 1, name := "",
    start_time := { date := 20210821, time := 100 * (k : Int) },
    end_time := { date := 20210821, time := 100 * (k : Int) + 100 },
    is_day_time := true, temperature := 90 - (k : Int),
    temperature_unit := "F", wind_speed := some "10 mph",
    wind_direction := some "NW",
    icon := "https://api.weather.gov/icons/land/day/hot",
    short_forecast := "Sunny", detailed_forecast := "Sunny and hot" }

/-- An hourly forecast response with 12 periods in chronological order. -/
def sampleForecast12 : Forecast :=
  { properties :=
      { updated := { date := 20210821, time := 1200 }, units := "us",
        generated_at := { date := 20210821, time := 1230 },
        elevation := .num 1620,
        periods := (List.range 12).map samplePeriod } }

/-- An hourly forecast response with only 3 periods. -/
def sampleForecast3 : Forecast :=
  { properties :=
      { updated := { date := 20210821, time := 1200 }, units := "us",
        generated_at := { date := 20210821, time := 1230 },
        elevation := .num 1620,
        periods := (List.range 3).map samplePeriod } }

/-- A period whose `wind_speed` is absent. -/
def samplePeriodNoWind : ForecastPeriod :=
  { samplePeriod 0 with wind_speed := none }

/-- A forecast one of whose periods lacks `wind_speed`. -/
def sampleForecastMissingWind : Forecast :=
  { properties :=
      { updated := { date := 20210821, time := 1200 }, units := "us",
        generated_at := { date := 20210821, time := 1230 },
        elevation := .num 1620,
        periods := [samplePeriod 0, samplePeriodNoWind, samplePeriod 2] } }

/-- A sample catalog city. -/
noncomputable def sampleCity : City :=
  { city := "Albuquerque", state_id := "NM", lat := 35.05, lng := -106.65 }

/-- Mocked point-metadata transport: every point resolves to
`sampleMetaJson`. -/
def mockPts : Point → Option Json := fun _ => some sampleMetaJson

/-- Mocked forecast transport returning 12 periods for every URL. -/
def mockNet12 : String → Option Forecast := fun _ => some sampleForecast12

/-- Mocked forecast transport returning 3 periods for every URL. -/
def mockNet3 : String → Option Forecast := fun _ => some sampleForecast3

/-! The theorems. -/

/-- Closed form of `Point.earth_distance_from` used by the proofs below. -/
theorem earth_distance_from_eq (a b : Point) : a.earth_distance_from b =
    6371 * (2 * arcsin (sqrt (sin ((a.lat - b.lat) * (π / 180) / 2) ^ 2
      + cos (a.lat * (π / 180)) * cos (b.lat * (π / 180))
        * sin ((a.lng - b.lng) * (π / 180) / 2) ^ 2))) := by
  unfold Point.earth_distance_from toRadians
  norm_num

/-- Taylor lower bound for `sin` on a nonnegative interval inside `[0, 1]`. -/
theorem sin_ge_poly {t lo hi : ℝ} (h1 : lo ≤ t) (h2 : t ≤ hi)
    (h0 : 0 ≤ lo) (hh : hi ≤ 1) :
    lo - lo ^ 3 / 6 - hi ^ 4 * (5 / 96) ≤ sin t := by
  have h0t : 0 ≤ t := le_trans h0 h1
  have ht1 : t ≤ 1 := le_trans h2 hh
  have habs : |t| ≤ 1 := by rw [abs_of_nonneg h0t]; exact ht1
  have hb := abs_le.mp (Real.sin_bound habs)
  rw [abs_of_nonneg h0t] at hb
  have h4 : t ^ 4 ≤ hi ^ 4 := pow_le_pow_left₀ h0t h2 4
  have hmono : lo - lo ^ 3 / 6 ≤ t - t ^ 3 / 6 := by
    have key : 0 ≤ (t - lo) * (6 - (t ^ 2 + t * lo + lo ^ 2)) := by
      have hq : t ^ 2 + t * lo + lo ^ 2 ≤ 3 := by nlinarith
      have hd : 0 ≤ t - lo := by linarith
      nlinarith
    nlinarith [key]
  linarith [hb.1]

/-- Taylor upper bound for `sin` on a nonnegative interval inside `[0, 1]`. -/
theorem sin_le_poly {t lo hi : ℝ} (h1 : lo ≤ t) (h2 : t ≤ hi)
    (h0 : 0 ≤ lo) (hh : hi ≤ 1) :
    sin t ≤ hi - hi ^ 3 / 6 + hi ^ 4 * (5 / 96) := by
  have h0t : 0 ≤ t := le_trans h0 h1
  have ht1 : t ≤ 1 := le_trans h2 hh
  have habs : |t| ≤ 1 := by rw [abs_of_nonneg h0t]; exact ht1
  have hb := abs_le.mp (Real.sin_bound habs)
  rw [abs_of_nonneg h0t] at hb
  have h4 : t ^ 4 ≤ hi ^ 4 := pow_le_pow_left₀ h0t h2 4
  have hmono : t - t ^ 3 / 6 ≤ hi - hi ^ 3 / 6 := by
    have key : 0 ≤ (hi - t) * (6 - (hi ^ 2 + hi * t + t ^ 2)) := by
      have hhi0 : 0 ≤ hi := le_trans h0t h2
      have hq : hi ^ 2 + hi * t + t ^ 2 ≤ 3 := by nlinarith
      have hd : 0 ≤ hi - t := by linarith
      nlinarith
    nlinarith [key]
  linarith [hb.2]

/-- Taylor lower bound for `cos` on a nonnegative interval inside `[0, 1]`. -/
theorem cos_ge_poly {t lo hi : ℝ} (h1 : lo ≤ t) (h2 : t ≤ hi)
    (h0 : 0 ≤ lo) (hh : hi ≤ 1) :
    1 - hi ^ 2 / 2 - hi ^ 4 * (5 / 96) ≤ cos t := by
  have h0t : 0 ≤ t := le_trans h0 h1
  have ht1 : t ≤ 1 := le_trans h2 hh
  have habs : |t| ≤ 1 := by rw [abs_of_nonneg h0t]; exact ht1
  have hb := abs_le.mp (Real.cos_bound habs)
  rw [abs_of_nonneg h0t] at hb
  have h4 : t ^ 4 ≤ hi ^ 4 := pow_le_pow_left₀ h0t h2 4
  have h2sq : t ^ 2 ≤ hi ^ 2 := pow_le_pow_left₀ h0t h2 2
  linarith [hb.1]

/-- Taylor upper bound for `cos` on a nonnegative interval inside `[0, 1]`. -/
theorem cos_le_poly {t lo hi : ℝ} (h1 : lo ≤ t) (h2 : t ≤ hi)
    (h0 : 0 ≤ lo) (hh : hi ≤ 1) :
    cos t ≤ 1 - lo ^ 2 / 2 + hi ^ 4 * (5 / 96) := by
  have h0t : 0 ≤ t := le_trans h0 h1
  have ht1 : t ≤ 1 := le_trans h2 hh
  have habs : |t| ≤ 1 := by rw [abs_of_nonneg h0t]; exact ht1
  have hb := abs_le.mp (Real.cos_bound habs)
  rw [abs_of_nonneg h0t] at hb
  have h4 : t ^ 4 ≤ hi ^ 4 := pow_le_pow_left₀ h0t h2 4
  have h2sq : lo ^ 2 ≤ t ^ 2 := pow_le_pow_left₀ h0 h1 2
  linarith [hb.2]

/-- Double-angle form used for the latitude cosines. -/
theorem cos_eq_one_sub_two_sin_sq (x : ℝ) : cos (2 * x) = 1 - 2 * sin x ^ 2 := by
  have h := Real.sin_sq_add_cos_sq x
  rw [Real.cos_two_mul]
  linarith

/-- Quadruple-angle form used for the latitude cosines. -/
theorem cos_four_eq (t : ℝ) : cos (4 * t) = 1 - 8 * sin t ^ 2 * cos t ^ 2 := by
  have h1 : cos (4 * t) = 1 - 2 * sin (2 * t) ^ 2 := by
    rw [show (4 : ℝ) * t = 2 * (2 * t) by ring, cos_eq_one_sub_two_sin_sq]
  rw [h1, Real.sin_two_mul]
  ring

/-- Interval bounds on `cos (4·t)` from nonnegative interval bounds on
`sin t` and `cos t`. -/
theorem cos_four_bounds {t s1 s2 c1 c2 : ℝ}
    (hs1 : s1 ≤ sin t) (hs2 : sin t ≤ s2)
    (hc1 : c1 ≤ cos t) (hc2 : cos t ≤ c2)
    (h0s : 0 ≤ s1) (h0c : 0 ≤ c1) :
    1 - 8 * s2 ^ 2 * c2 ^ 2 ≤ cos (4 * t)
    ∧ cos (4 * t) ≤ 1 - 8 * s1 ^ 2 * c1 ^ 2 := by
  rw [cos_four_eq]
  have hsin0 : 0 ≤ sin t := le_trans h0s hs1
  have hcos0 : 0 ≤ cos t := le_trans h0c hc1
  have e1 : sin t ^ 2 ≤ s2 ^ 2 := pow_le_pow_left₀ hsin0 hs2 2
  have e2 : s1 ^ 2 ≤ sin t ^ 2 := pow_le_pow_left₀ h0s hs1 2
  have e3 : cos t ^ 2 ≤ c2 ^ 2 := pow_le_pow_left₀ hcos0 hc2 2
  have e4 : c1 ^ 2 ≤ cos t ^ 2 := pow_le_pow_left₀ h0c hc1 2
  have p1 : sin t ^ 2 * cos t ^ 2 ≤ s2 ^ 2 * c2 ^ 2 :=
    mul_le_mul e1 e3 (sq_nonneg _) (sq_nonneg s2)
  have p2 : s1 ^ 2 * c1 ^ 2 ≤ sin t ^ 2 * cos t ^ 2 :=
    mul_le_mul e2 e4 (sq_nonneg c1) (sq_nonneg (sin t))
  constructor
  · linarith
  · linarith

/-- Numeric bounds on the cosine of the first latitude (48.85341°). -/
theorem cos_lat1_bounds :
    (0.657636 : ℝ) ≤ cos ((48.85341 : ℝ) * (π / 180))
    ∧ cos ((48.85341 : ℝ) * (π / 180)) ≤ 0.658483 := by
  have htlo : (48.85341 : ℝ) * 3.141592 / 720 ≤ (48.85341 : ℝ) * π / 720 := by
    have := Real.pi_gt_d6
    linarith
  have hthi : (48.85341 : ℝ) * π / 720 ≤ (48.85341 : ℝ) * 3.141593 / 720 := by
    have := Real.pi_lt_d6
    linarith
  have hs1 : (0.2114413 : ℝ) ≤ sin ((48.85341 : ℝ) * π / 720) :=
    le_trans (by norm_num) (sin_ge_poly htlo hthi (by norm_num) (by norm_num))
  have hs2 : sin ((48.85341 : ℝ) * π / 720) ≤ 0.2116565 :=
    le_trans (sin_le_poly htlo hthi (by norm_num) (by norm_num)) (by norm_num)
  have hc1 : (0.9771731 : ℝ) ≤ cos ((48.85341 : ℝ) * π / 720) :=
    le_trans (by norm_num) (cos_ge_poly htlo hthi (by norm_num) (by norm_num))
  have hc2 : cos ((48.85341 : ℝ) * π / 720) ≤ 0.9773883 :=
    le_trans (cos_le_poly htlo hthi (by norm_num) (by norm_num)) (by norm_num)
  have hb := cos_four_bounds hs1 hs2 hc1 hc2 (by norm_num) (by norm_num)
  have hx : (48.85341 : ℝ) * (π / 180) = 4 * ((48.85341 : ℝ) * π / 720) := by
    ring
  rw [hx]
  exact ⟨le_trans (by norm_num) hb.1, le_trans hb.2 (by norm_num)⟩

/-- Numeric bounds on the cosine of the second latitude (51.50853°). -/
theorem cos_lat2_bounds :
    (0.621942 : ℝ) ≤ cos ((51.50853 : ℝ) * (π / 180))
    ∧ cos ((51.50853 : ℝ) * (π / 180)) ≤ 0.623050 := by
  have htlo : (51.50853 : ℝ) * 3.141592 / 720 ≤ (51.50853 : ℝ) * π / 720 := by
    have := Real.pi_gt_d6
    linarith
  have hthi : (51.50853 : ℝ) * π / 720 ≤ (51.50853 : ℝ) * 3.141593 / 720 := by
    have := Real.pi_lt_d6
    linarith
  have hs1 : (0.2227233 : ℝ) ≤ sin ((51.50853 : ℝ) * π / 720) :=
    le_trans (by norm_num) (sin_ge_poly htlo hthi (by norm_num) (by norm_num))
  have hs2 : sin ((51.50853 : ℝ) * π / 720) ≤ 0.2229892 :=
    le_trans (sin_le_poly htlo hthi (by norm_num) (by norm_num)) (by norm_num)
  have hc1 : (0.9746111 : ℝ) ≤ cos ((51.50853 : ℝ) * π / 720) :=
    le_trans (by norm_num) (cos_ge_poly htlo hthi (by norm_num) (by norm_num))
  have hc2 : cos ((51.50853 : ℝ) * π / 720) ≤ 0.9748770 :=
    le_trans (cos_le_poly htlo hthi (by norm_num) (by norm_num)) (by norm_num)
  have hb := cos_four_bounds hs1 hs2 hc1 hc2 (by norm_num) (by norm_num)
  have hx : (51.50853 : ℝ) * (π / 180) = 4 * ((51.50853 : ℝ) * π / 720) := by
    ring
  rw [hx]
  exact ⟨le_trans (by norm_num) hb.1, le_trans hb.2 (by norm_num)⟩

/-- Numeric bounds on `sin² (Δlat/2)` for the London–Paris pair. -/
theorem sin_sq_dlat_bounds :
    (0.0005367654 : ℝ) ≤ sin ((2.65512 : ℝ) * π / 360) ^ 2
    ∧ sin ((2.65512 : ℝ) * π / 360) ^ 2 ≤ 0.0005367673 := by
  have hlo : (2.65512 : ℝ) * 3.141592 / 360 ≤ (2.65512 : ℝ) * π / 360 := by
    have := Real.pi_gt_d6
    linarith
  have hhi : (2.65512 : ℝ) * π / 360 ≤ (2.65512 : ℝ) * 3.141593 / 360 := by
    have := Real.pi_lt_d6
    linarith
  have hs1 : (0.023168199 : ℝ) ≤ sin ((2.65512 : ℝ) * π / 360) :=
    le_trans (by norm_num) (sin_ge_poly hlo hhi (by norm_num) (by norm_num))
  have hs2 : sin ((2.65512 : ℝ) * π / 360) ≤ 0.023168238 :=
    le_trans (sin_le_poly hlo hhi (by norm_num) (by norm_num)) (by norm_num)
  have h0 : (0 : ℝ) ≤ 0.023168199 := by norm_num
  constructor
  · exact le_trans (by norm_num) (pow_le_pow_left₀ h0 hs1 2)
  · exact le_trans (pow_le_pow_left₀ (le_trans h0 hs1) hs2 2) (by norm_num)

/-- Numeric bounds on `sin² (Δlng/2)` for the London–Paris pair. -/
theorem sin_sq_dlng_bounds :
    (0.0003763068 : ℝ) ≤ sin ((2.22306 : ℝ) * π / 360) ^ 2
    ∧ sin ((2.22306 : ℝ) * π / 360) ^ 2 ≤ 0.0003763077 := by
  have hlo : (2.22306 : ℝ) * 3.141592 / 360 ≤ (2.22306 : ℝ) * π / 360 := by
    have := Real.pi_gt_d6
    linarith
  have hhi : (2.22306 : ℝ) * π / 360 ≤ (2.22306 : ℝ) * 3.141593 / 360 := by
    have := Real.pi_lt_d6
    linarith
  have hs1 : (0.019398629 : ℝ) ≤ sin ((2.22306 : ℝ) * π / 360) :=
    le_trans (by norm_num) (sin_ge_poly hlo hhi (by norm_num) (by norm_num))
  have hs2 : sin ((2.22306 : ℝ) * π / 360) ≤ 0.019398651 :=
    le_trans (sin_le_poly hlo hhi (by norm_num) (by norm_num)) (by norm_num)
  have h0 : (0 : ℝ) ≤ 0.019398629 := by norm_num
  constructor
  · exact le_trans (by norm_num) (pow_le_pow_left₀ h0 hs1 2)
  · exact le_trans (pow_le_pow_left₀ (le_trans h0 hs1) hs2 2) (by norm_num)

/-- C2: the distance computed for the Points (48.85341, -2.34880) and
(51.50853, -0.12574) — the regression pair of the source's `london_to_paris`
test — is approximately 334.96 km, within 0.1 km. -/
theorem london_to_paris_reference_distance :
    |Point.earth_distance_from (Point.new 48.85341 (-2.34880))
        (Point.new 51.50853 (-0.12574)) - 334.96| ≤ 0.1 := by
  have hd : Point.earth_distance_from (Point.new 48.85341 (-2.34880))
      (Point.new 51.50853 (-0.12574))
      = 6371 * (2 * arcsin (sqrt
          (sin (((48.85341 : ℝ) - 51.50853) * (π / 180) / 2) ^ 2
            + cos ((48.85341 : ℝ) * (π / 180)) * cos ((51.50853 : ℝ) * (π / 180))
              * sin ((((-2.34880) : ℝ) - (-0.12574)) * (π / 180) / 2) ^ 2))) :=
    earth_distance_from_eq _ _
  have e1 : sin (((48.85341 : ℝ) - 51.50853) * (π / 180) / 2) ^ 2
      = sin ((2.65512 : ℝ) * π / 360) ^ 2 := by
    rw [show ((48.85341 : ℝ) - 51.50853) * (π / 180) / 2
        = -((2.65512 : ℝ) * π / 360) by ring, Real.sin_neg]
    ring
  have e2 : sin ((((-2.34880) : ℝ) - (-0.12574)) * (π / 180) / 2) ^ 2
      = sin ((2.22306 : ℝ) * π / 360) ^ 2 := by
    rw [show (((-2.34880) : ℝ) - (-0.12574)) * (π / 180) / 2
        = -((2.22306 : ℝ) * π / 360) by ring, Real.sin_neg]
    ring
  rw [e1, e2] at hd
  obtain ⟨hA1, hA2⟩ := cos_lat1_bounds
  obtain ⟨hB1, hB2⟩ := cos_lat2_bounds
  obtain ⟨hU1, hU2⟩ := sin_sq_dlat_bounds
  obtain ⟨hV1, hV2⟩ := sin_sq_dlng_bounds
  set H : ℝ := sin ((2.65512 : ℝ) * π / 360) ^ 2
    + cos ((48.85341 : ℝ) * (π / 180)) * cos ((51.50853 : ℝ) * (π / 180))
      * sin ((2.22306 : ℝ) * π / 360) ^ 2 with hH
  have hcc1 : (0.657636 : ℝ) * 0.621942
      ≤ cos ((48.85341 : ℝ) * (π / 180)) * cos ((51.50853 : ℝ) * (π / 180)) :=
    mul_le_mul hA1 hB1 (by norm_num) (le_trans (by norm_num) hA1)
  have hcc2 : cos ((48.85341 : ℝ) * (π / 180)) * cos ((51.50853 : ℝ) * (π / 180))
      ≤ (0.658483 : ℝ) * 0.623050 :=
    mul_le_mul hA2 hB2 (le_trans (by norm_num) hB1)
      (le_trans (le_trans (by norm_num) hA1) hA2)
  have hp1 : (0.657636 : ℝ) * 0.621942 * 0.0003763068
      ≤ cos ((48.85341 : ℝ) * (π / 180)) * cos ((51.50853 : ℝ) * (π / 180))
        * sin ((2.22306 : ℝ) * π / 360) ^ 2 :=
    mul_le_mul hcc1 hV1 (by norm_num) (le_trans (by norm_num) hcc1)
  have hp2 : cos ((48.85341 : ℝ) * (π / 180)) * cos ((51.50853 : ℝ) * (π / 180))
        * sin ((2.22306 : ℝ) * π / 360) ^ 2
      ≤ (0.658483 : ℝ) * 0.623050 * 0.0003763077 :=
    mul_le_mul hcc2 hV2 (sq_nonneg _) (by norm_num)
  have hHlo : (0.000690679 : ℝ) ≤ H := by
    rw [hH]
    linarith
  have hHhi : H ≤ (0.000691155 : ℝ) := by
    rw [hH]
    linarith
  have hs_lb : (0.02628076 : ℝ) ≤ sqrt H :=
    Real.le_sqrt_of_sq_le (le_trans (by norm_num) hHlo)
  have hs_ub : sqrt H ≤ 0.02628984 :=
    Real.sqrt_le_iff.mpr ⟨by norm_num, le_trans hHhi (by norm_num)⟩
  have hpi2 : (0.02629295 : ℝ) ≤ π / 2 := by
    have := Real.pi_gt_d6
    linarith
  have harc_ub : arcsin (sqrt H) ≤ 0.02629295 := by
    have hsY : (0.02628984 : ℝ) ≤ sin 0.02629295 :=
      le_trans (by norm_num)
        (sin_ge_poly (le_refl (0.02629295 : ℝ)) (le_refl _)
          (by norm_num) (by norm_num))
    have h1 : sqrt H ≤ sin 0.02629295 := le_trans hs_ub hsY
    have h2 := Real.monotone_arcsin h1
    rwa [Real.arcsin_sin (by linarith) hpi2] at h2
  have harc_lb : (0.02628374 : ℝ) ≤ arcsin (sqrt H) := by
    have hsY : sin 0.02628374 ≤ (0.02628076 : ℝ) :=
      le_trans
        (sin_le_poly (le_refl (0.02628374 : ℝ)) (le_refl _)
          (by norm_num) (by norm_num)) (by norm_num)
    have h1 : sin 0.02628374 ≤ sqrt H := le_trans hsY hs_lb
    have h2 := Real.monotone_arcsin h1
    rwa [Real.arcsin_sin (by linarith) (by linarith)] at h2
  rw [hd, abs_le]
  constructor
  · linarith
  · linarith

/-- C1: for every pair of Points, `earth_distance_from` computes the Haversine
distance exactly by the steps §4.1 states: latitudes and the coordinate
deltas converted to radians, `h = sin²(Δlat/2) + cos·cos·sin²(Δlng/2)`,
central angle `2·asin(√h)` with no clamping of `h`, result `6371` times the
central angle.  The printed status message is I/O only and does not affect
the returned value (the embedded function returns exactly the computed
distance). -/
theorem earth_distance_matches_spec_steps (a b : Point) :
    a.earth_distance_from b = haversineSpecDistance a b := by
  unfold Point.earth_distance_from haversineSpecDistance toRadians
  norm_num

/-- C7: the distance is symmetric in its two points (exactly, in the
real-number model; hence within any floating-point tolerance). -/
theorem earth_distance_symm (a b : Point) :
    a.earth_distance_from b = b.earth_distance_from a := by
  rw [earth_distance_from_eq, earth_distance_from_eq]
  have e1 : ∀ x y : ℝ,
      sin ((x - y) * (π / 180) / 2) ^ 2 = sin ((y - x) * (π / 180) / 2) ^ 2 := by
    intro x y
    rw [show (x - y) * (π / 180) / 2 = -((y - x) * (π / 180) / 2) by ring,
      Real.sin_neg]
    ring
  rw [e1 a.lat b.lat, e1 a.lng b.lng,
    mul_comm (cos (a.lat * (π / 180))) (cos (b.lat * (π / 180)))]

/-- C9: converting a City to a Point copies `lat` and `lng` identically, by
both conversion paths (`From<City> for Point` and `City::into_point`); in
particular the City at lat 48.85341, lng -2.34880 converts to exactly that
Point. -/
theorem city_into_point_roundtrip :
    (∀ c : City, Point.fromCity c = { lat := c.lat, lng := c.lng }
      ∧ City.into_point c = .ok { lat := c.lat, lng := c.lng })
    ∧ Point.fromCity
        { city := "Paris", state_id := "75", lat := 48.85341, lng := -2.34880 }
      = { lat := 48.85341, lng := -2.34880 } :=
  ⟨fun _ => ⟨rfl, rfl⟩, rfl⟩

/-- C10: `City::into_point` is total: despite its fallible signature it
returns `Ok` with the copied coordinates on every input; no input reaches an
error branch. -/
theorem city_into_point_always_ok (c : City) :
    ∃ p : Point, City.into_point c = .ok p ∧ p.lat = c.lat ∧ p.lng = c.lng :=
  ⟨{ lat := c.lat, lng := c.lng }, rfl, rfl, rfl⟩

/-- The aggregation loop aborts (`none`, the model of the source's `unwrap`
panic) whenever any period of the list lacks a wind field. -/
theorem buildForecastVec_eq_none {l : List ForecastPeriod} {p : ForecastPeriod}
    (hp : p ∈ l) (hmiss : p.wind_speed = none ∨ p.wind_direction = none) :
    buildForecastVec l = none := by
  induction l with
  | nil => cases hp
  | cons q rest ih =>
    cases hp with
    | head =>
      rcases hmiss with h | h
      · simp [buildForecastVec, h]
      · cases hws : p.wind_speed with
        | none => simp [buildForecastVec, hws]
        | some ws => simp [buildForecastVec, hws, h]
    | tail _ hrest =>
      have ht := ih hrest
      cases hws : q.wind_speed with
      | none => simp [buildForecastVec, hws]
      | some ws =>
        cases hwd : q.wind_direction with
        | none => simp [buildForecastVec, hws, hwd]
        | some wd => simp [buildForecastVec, hws, hwd, ht]

/-- C3: building the `WeatherBundle` from a City and a Forecast one of whose
periods lacks `wind_speed` or `wind_direction` fails (the aggregation aborts
as a whole; no default value is substituted and no partial bundle is
produced). -/
theorem weather_bundle_missing_wind_fails (loc : City) (fcb : Forecast)
    (p : ForecastPeriod) (hp : p ∈ fcb.properties.periods)
    (hmiss : p.wind_speed = none ∨ p.wind_direction = none) :
    WeatherBundle.new loc fcb = none := by
  unfold WeatherBundle.new
  rw [buildForecastVec_eq_none hp hmiss]
  rfl

/-- Witness for C3 at a concrete forecast whose second period has no
`wind_speed`. -/
theorem weather_bundle_missing_wind_fails_witness :
    samplePeriodNoWind ∈ sampleForecastMissingWind.properties.periods
    ∧ (samplePeriodNoWind.wind_speed = none
        ∨ samplePeriodNoWind.wind_direction = none)
    ∧ WeatherBundle.new sampleCity sampleForecastMissingWind = none :=
  ⟨List.mem_cons_of_mem _ (List.mem_cons_self _ _), Or.inl rfl,
    weather_bundle_missing_wind_fails sampleCity sampleForecastMissingWind
      samplePeriodNoWind
      (List.mem_cons_of_mem _ (List.mem_cons_self _ _)) (Or.inl rfl)⟩

/-- When every period carries both wind fields, the aggregation loop yields
one bundle per period, in input order, with temperature and short forecast
copied verbatim. -/
theorem buildForecastVec_all_some (l : List ForecastPeriod)
    (hall : ∀ p ∈ l, p.wind_speed.isSome ∧ p.wind_direction.isSome) :
    ∃ bs : List ForecastBundle, buildForecastVec l = some bs
      ∧ bs.length = l.length
      ∧ ∀ i : Nat, bs[i]?.map (fun b => (b.temperature, b.short_forecast))
          = l[i]?.map (fun p => (p.temperature, p.short_forecast)) := by
  induction l with
  | nil => exact ⟨[], rfl, rfl, fun _ => rfl⟩
  | cons q rest ih =>
    obtain ⟨hws, hwd⟩ := hall q (List.mem_cons_self q rest)
    obtain ⟨ws, hws2⟩ := Option.isSome_iff_exists.mp hws
    obtain ⟨wd, hwd2⟩ := Option.isSome_iff_exists.mp hwd
    obtain ⟨bs, hbs, hlen, hidx⟩ :=
      ih (fun p hp => hall p (List.mem_cons_of_mem q hp))
    refine ⟨{ start := q.start_time, «end» := q.end_time,
              temperature := q.temperature, wind_speed := ws,
              wind_direction := wd,
              short_forecast := q.short_forecast } :: bs, ?_, ?_, ?_⟩
    · simp [buildForecastVec, hws2, hwd2, hbs]
    · simp [hlen]
    · intro i
      cases i with
      | zero => simp
      | succ n => simpa using hidx n

/-- C5: for every City and every Forecast all of whose periods carry both
wind fields, `WeatherBundle::new` succeeds and produces exactly one
`ForecastBundle` per period, in input order, with `temperature` and
`short_forecast` copied verbatim, and with `updated` copied from
`forecast.properties.updated`. -/
theorem weather_bundle_preserves_periods (loc : City) (fcb : Forecast)
    (hall : ∀ p ∈ fcb.properties.periods,
      p.wind_speed.isSome ∧ p.wind_direction.isSome) :
    ∃ wb : WeatherBundle, WeatherBundle.new loc fcb = some wb
      ∧ wb.location = loc
      ∧ wb.updated = fcb.properties.updated
      ∧ wb.forecast.length = fcb.properties.periods.length
      ∧ ∀ i : Nat,
          wb.forecast[i]?.map (fun b => (b.temperature, b.short_forecast))
          = fcb.properties.periods[i]?.map
              (fun p => (p.temperature, p.short_forecast)) := by
  obtain ⟨bs, hbs, hlen, hidx⟩ := buildForecastVec_all_some _ hall
  exact ⟨{ location := loc, forecast := bs,
           updated := fcb.properties.updated },
    by simp [WeatherBundle.new, hbs], rfl, rfl, hlen, hidx⟩

/-- Witness for C5 at the concrete 12-period forecast. -/
theorem weather_bundle_preserves_periods_witness :
    (∀ p ∈ sampleForecast12.properties.periods,
      p.wind_speed.isSome ∧ p.wind_direction.isSome)
    ∧ ∃ wb : WeatherBundle,
        WeatherBundle.new sampleCity sampleForecast12 = some wb
        ∧ wb.location = sampleCity
        ∧ wb.updated = sampleForecast12.properties.updated
        ∧ wb.forecast.length = sampleForecast12.properties.periods.length
        ∧ ∀ i : Nat,
            wb.forecast[i]?.map (fun b => (b.temperature, b.short_forecast))
            = sampleForecast12.properties.periods[i]?.map
                (fun p => (p.temperature, p.short_forecast)) :=
  ⟨by decide, weather_bundle_preserves_periods sampleCity sampleForecast12
    (by decide)⟩

/-- C4: when the hourly forecast response holds fewer than 10 periods, the
orchestrator's `periods[0..10]` window selection panics; no guard clamps the
window to `min(10, available)`. -/
theorem weather_report_panics_under_ten_periods
    (pts : Point → Option Json) (net : String → Option Forecast)
    (lat lng : ℝ) (body : Json) (info : PointInfo) (f : Forecast)
    (h1 : pts { lat := lat, lng := lng } = some body)
    (h2 : decodePointInfo body = some info)
    (h3 : net info.properties.forecast_hourly = some f)
    (h4 : f.properties.periods.length < 10) :
    weather_report pts net lat lng = .panicked := by
  simp only [weather_report, get_point, get_forecast_hourly, h1, h2, h3]
  rw [if_neg (by omega)]

/-- Witness for C4 at the concrete 3-period forecast. -/
theorem weather_report_panics_under_ten_periods_witness :
    mockPts { lat := 35.05, lng := -106.65 } = some sampleMetaJson
    ∧ decodePointInfo sampleMetaJson = some samplePointInfo
    ∧ mockNet3 samplePointInfo.properties.forecast_hourly = some sampleForecast3
    ∧ sampleForecast3.properties.periods.length < 10
    ∧ weather_report mockPts mockNet3 35.05 (-106.65) = .panicked :=
  ⟨rfl, rfl, rfl, by decide,
    weather_report_panics_under_ten_periods mockPts mockNet3 35.05 (-106.65)
      sampleMetaJson samplePointInfo sampleForecast3 rfl rfl rfl (by decide)⟩

/-- C6: when the hourly forecast response holds at least 10 periods, the
orchestrator renders exactly 10 lines, one per period of `periods[0..10)` in
order, each carrying the period's start time, end time, temperature and
short forecast. -/
theorem weather_report_renders_first_ten
    (pts : Point → Option Json) (net : String → Option Forecast)
    (lat lng : ℝ) (body : Json) (info : PointInfo) (f : Forecast)
    (h1 : pts { lat := lat, lng := lng } = some body)
    (h2 : decodePointInfo body = some info)
    (h3 : net info.properties.forecast_hourly = some f)
    (h4 : 10 ≤ f.properties.periods.length) :
    weather_report pts net lat lng
      = .ok ((f.properties.periods.take 10).map renderPeriod)
    ∧ ((f.properties.periods.take 10).map renderPeriod).length = 10
    ∧ ∀ i : Nat, i < 10 →
        ((f.properties.periods.take 10).map renderPeriod)[i]?
          = (f.properties.periods[i]?).map renderPeriod := by
  refine ⟨?_, ?_, ?_⟩
  · simp only [weather_report, get_point, get_forecast_hourly, h1, h2, h3]
    rw [if_pos h4]
  · rw [List.length_map, List.length_take]
    omega
  · intro i hi
    rw [List.getElem?_map, List.getElem?_take, if_pos hi]

/-- Witness for C6: the mocked end-to-end scenario of §8 — the point
(35.05, -106.65) resolves to metadata whose `forecastHourly` URL returns 12
periods, and the report renders exactly the first 10. -/
theorem weather_report_renders_first_ten_witness :
    mockPts { lat := 35.05, lng := -106.65 } = some sampleMetaJson
    ∧ decodePointInfo sampleMetaJson = some samplePointInfo
    ∧ mockNet12 samplePointInfo.properties.forecast_hourly
        = some sampleForecast12
    ∧ 10 ≤ sampleForecast12.properties.periods.length
    ∧ (weather_report mockPts mockNet12 35.05 (-106.65)
        = .ok ((sampleForecast12.properties.periods.take 10).map renderPeriod)
      ∧ ((sampleForecast12.properties.periods.take 10).map renderPeriod).length
          = 10
      ∧ ∀ i : Nat, i < 10 →
          ((sampleForecast12.properties.periods.take 10).map renderPeriod)[i]?
            = (sampleForecast12.properties.periods[i]?).map renderPeriod) :=
  ⟨rfl, rfl, rfl, by decide,
    weather_report_renders_first_ten mockPts mockNet12 35.05 (-106.65)
      sampleMetaJson samplePointInfo sampleForecast12 rfl rfl rfl (by decide)⟩

/-- C8: decoding a well-formed metadata body as `PointInfo` populates
`forecast` and `forecast_hourly` exactly with the given strings, and every
snake_case model field is populated from its camelCase wire field per the
mapping table (`forecastOffice`→`forecast_office`,
`forecastGridData`→`forecast_grid_data`,
`observationStations`→`observation_stations`,
`relativeLocation`→`relative_location`, `forecastZone`→`forecast_zone`,
`fireWeatherZone`→`fire_weather_zone`, `timeZone`→`time_zone`,
`radarStation`→`radar_station`). -/
theorem point_info_decode_field_mapping
    (body props rl : Json) (rloc : RelativeLocation)
    (i fo f fh fgd os fz co fwz tz rs : String)
    (h0 : body.lookup "id" = some (Json.str i))
    (h1 : body.lookup "properties" = some props)
    (h2 : props.lookup "forecastOffice" = some (Json.str fo))
    (h3 : props.lookup "forecast" = some (Json.str f))
    (h4 : props.lookup "forecastHourly" = some (Json.str fh))
    (h5 : props.lookup "forecastGridData" = some (Json.str fgd))
    (h6 : props.lookup "observationStations" = some (Json.str os))
    (h7 : props.lookup "relativeLocation" = some rl)
    (h8 : decodeRelativeLocation rl = some rloc)
    (h9 : props.lookup "forecastZone" = some (Json.str fz))
    (h10 : props.lookup "county" = some (Json.str co))
    (h11 : props.lookup "fireWeatherZone" = some (Json.str fwz))
    (h12 : props.lookup "timeZone" = some (Json.str tz))
    (h13 : props.lookup "radarStation" = some (Json.str rs)) :
    decodePointInfo body = some
      { id := i,
        properties :=
          { forecast_office := fo, forecast := f, forecast_hourly := fh,
            forecast_grid_data := fgd, observation_stations := os,
            relative_location := rloc, forecast_zone := fz, county := co,
            fire_weather_zone := fwz, time_zone := tz,
            radar_station := rs } } := by
  simp [decodePointInfo, decodePointProps, Json.getStr, Json.asStr,
    h0, h1, h2, h3, h4, h5, h6, h7, h8, h9, h10, h11, h12, h13]

/-- Witness for C8 at the concrete metadata body `sampleMetaJson`. -/
theorem point_info_decode_field_mapping_witness :
    sampleMetaJson.lookup "id"
        = some (Json.str "https://api.weather.gov/points/35.05,-106.65")
    ∧ decodeRelativeLocation sampleRelativeJson = some sampleRelativeLocation
    ∧ decodePointInfo sampleMetaJson = some samplePointInfo := by
  refine ⟨rfl, rfl, ?_⟩
  exact point_info_decode_field_mapping sampleMetaJson
    (sampleMetaJson.lookup "properties").get! sampleRelativeJson
    sampleRelativeLocation
    "https://api.weather.gov/points/35.05,-106.65"
    "https://api.weather.gov/offices/ABQ"
    "https://api.weather.gov/gridpoints/ABQ/97,105/forecast"
    "https://api.weather.gov/gridpoints/ABQ/97,105/forecast/hourly"
    "https://api.weather.gov/gridpoints/ABQ/97,105"
    "https://api.weather.gov/gridpoints/ABQ/97,105/stations"
    "https://api.weather.gov/zones/forecast/NMZ211"
    "https://api.weather.gov/zones/county/NMC001"
    "https://api.weather.gov/zones/fire/NMZ104"
    "America/Denver" "KABX"
    rfl rfl rfl rfl rfl rfl rfl rfl rfl rfl rfl rfl rfl rfl

end NWS
